import Mathlib

/-!
Shallow embedding of a single-process retail checkout core
(`Product`, `Inventory`, `Customer`, `CartItem`, `ShoppingCart`,
`ShippingService`) from `src/main.py`.

Modelling conventions:
* Python numbers (prices, balances, amounts, stock counters) become `ℚ`.
* Wall-clock time is an explicit parameter `now : Nat`; a calendar date such
  as `"2025-08-01"` becomes a `Nat` timestamp (only the order matters, and
  `datetime.strptime(d) < datetime.now()` becomes `d < now`, strict, matching
  the source).
* The inventory dict `products` becomes a list of products with dict
  semantics: lookup returns the first (unique, in every reachable state)
  product with the given name, and `add_product` overwrites in place.
* Mutation becomes explicit state passing.  `print` calls that report a
  rejection become an explicit `printed : List String` output component;
  the value a Python method returns to its caller is kept separately
  (`ret : Unit` models `return`/`return None`).
* Python aliasing (a `CartItem` holds a reference to the `Product` object)
  is modelled by storing a snapshot of the product in the cart item: the
  only fields ever mutated are the stock counters, which no code path reads
  through a cart item, so the snapshot is observationally identical.
-/

structure Product where
  name : String
  price_per_unit : ℚ
  available_quantity : ℚ
  available_weight : ℚ
  expiration_date : Option Nat
  is_shippable : Bool
  by_weight : Bool
deriving DecidableEq

/-- `Product.is_expired`: no expiration date ⇒ `false`; else `true` iff the
expiration date is strictly before the current moment (`d < now`). -/
def Product.is_expired (p : Product) (now : Nat) : Bool :=
  match p.expiration_date with
  | none => false
  | some d => decide (d < now)

/-- `Product.get_total_price`: `price_per_unit * amount`, no validation. -/
def Product.get_total_price (p : Product) (amount : ℚ) : ℚ :=
  p.price_per_unit * amount

/-- `Product.get_weight`: `amount` if `by_weight` else `0`. -/
def Product.get_weight (p : Product) (amount : ℚ) : ℚ :=
  if p.by_weight then amount else 0

/-- `Product.get_name`. -/
def Product.get_name (p : Product) : String :=
  p.name

/-- The stock counter selected by `by_weight` (the counter that
`is_available` compares against and `deduct_stock` subtracts from). -/
def Product.active_counter (p : Product) : ℚ :=
  if p.by_weight then p.available_weight else p.available_quantity

/-- The in-place mutation `product.available_weight -= amount` /
`product.available_quantity -= amount` performed by `deduct_stock`. -/
def Product.deduct (p : Product) (amount : ℚ) : Product :=
  if p.by_weight then { p with available_weight := p.available_weight - amount }
  else { p with available_quantity := p.available_quantity - amount }

structure Inventory where
  products : List Product
deriving DecidableEq

/-- `Inventory.get_product`: dict lookup `self.products.get(name)`. -/
def Inventory.get_product (inv : Inventory) (name : String) : Option Product :=
  inv.products.find? (fun p => p.name == name)

/-- `Inventory.add_product`: `self.products[product.name] = product`
(overwrite in place if the key exists, else insert at the end —
Python dicts preserve insertion order and keep the original position on
overwrite). -/
def Inventory.add_product (inv : Inventory) (product : Product) : Inventory :=
  if inv.products.any (fun p => p.name == product.name) then
    ⟨inv.products.map (fun p => if p.name == product.name then product else p)⟩
  else
    ⟨inv.products ++ [product]⟩

/-- `Inventory.is_available`: `(False, reason)` if the product is missing or
expired or the requested amount strictly exceeds the active counter,
`(True, "")` otherwise. -/
def Inventory.is_available (inv : Inventory) (now : Nat) (name : String)
    (amount : ℚ) : Bool × String :=
  match inv.get_product name with
  | none => (false, "Product not found or expired.")
  | some product =>
    if product.is_expired now then
      (false, "Product not found or expired.")
    else if product.by_weight then
      if amount > product.available_weight then
        (false, "Only " ++ toString product.available_weight ++ "g of "
          ++ name ++ " available.")
      else (true, "")
    else
      if amount > product.available_quantity then
        (false, "Only " ++ toString product.available_quantity ++ " units of "
          ++ name ++ " available.")
      else (true, "")

/-- Helper for `deduct_stock`: update the (unique) dict entry with the given
name, i.e. replace the first product whose name matches. -/
def deductFirst : List Product → String → ℚ → List Product
  | [], _, _ => []
  | p :: ps, name, amount =>
    if p.name == name then p.deduct amount :: ps
    else p :: deductFirst ps name amount

/-- `Inventory.deduct_stock`: if a product with this name exists,
unconditionally subtract `amount` from its active counter; otherwise do
nothing. -/
def Inventory.deduct_stock (inv : Inventory) (name : String) (amount : ℚ) :
    Inventory :=
  ⟨deductFirst inv.products name amount⟩

/-- The active counter of the product stored under `name`, read through the
inventory's own lookup. -/
def Inventory.counterOf (inv : Inventory) (name : String) : Option ℚ :=
  (inv.get_product name).map Product.active_counter

structure CartItem where
  product : Product
  amount : ℚ
deriving DecidableEq

def CartItem.get_total_price (i : CartItem) : ℚ :=
  i.product.get_total_price i.amount

def CartItem.get_weight (i : CartItem) : ℚ :=
  i.product.get_weight i.amount

def CartItem.get_name (i : CartItem) : String :=
  i.product.get_name

structure Customer where
  name : String
  balance : ℚ
deriving DecidableEq

structure ShoppingCart where
  customer : Customer
  inventory : Inventory
  items : List CartItem
deriving DecidableEq

def SHIPPING_FEE : ℚ := 5

/-- Result of one `add_item` call: the updated cart state, the rejection
messages printed (empty on success), and the value returned to the caller —
Python's `add_item` always executes a bare `return`, i.e. returns `None`,
modelled as `Unit`. -/
structure AddItemOut where
  cart : ShoppingCart
  printed : List String
  ret : Unit
deriving DecidableEq

/-- `ShoppingCart.add_item`: look the product up; print a reason and stop if
it is absent, expired, or `is_available` fails; otherwise append a new
`CartItem`. -/
def ShoppingCart.add_item (cart : ShoppingCart) (now : Nat)
    (product_name : String) (amount : ℚ) : AddItemOut :=
  match cart.inventory.get_product product_name with
  | none => ⟨cart, [product_name ++ " not found in inventory."], ()⟩
  | some product =>
    if product.is_expired now then
      ⟨cart, ["Cannot add " ++ product_name ++ ": expired."], ()⟩
    else
      match cart.inventory.is_available now product_name amount with
      | (true, _) =>
        ⟨{ cart with items := cart.items ++ [⟨product, amount⟩] }, [], ()⟩
      | (false, msg) =>
        ⟨cart, ["Cannot add " ++ product_name ++ ": " ++ msg], ()⟩

def ShoppingCart.is_empty (cart : ShoppingCart) : Bool :=
  cart.items.length == 0

def ShoppingCart.get_total_price (cart : ShoppingCart) : ℚ :=
  (cart.items.map CartItem.get_total_price).sum

def ShoppingCart.get_shippable_items (cart : ShoppingCart) : List CartItem :=
  cart.items.filter (fun i => i.product.is_shippable)

/-- How one `checkout` call ended, one constructor per exit path of the
source (identified by the message it prints). -/
inductive CheckoutResult where
  | emptyCart
  | expiredItem (name : String)
  | insufficientBalance
  | success
deriving DecidableEq

/-- The rejection message the source prints for each checkout outcome
(`""` for success, which prints a receipt instead). -/
def CheckoutResult.message : CheckoutResult → String
  | .emptyCart => "Cart is empty."
  | .expiredItem n => "Cannot checkout: " ++ n ++ " is expired."
  | .insufficientBalance => "Insufficient balance."
  | .success => ""

/-- Result of one `checkout` call: updated state, outcome, the items handed
to `ShippingService.send_items` (`none` when the call is not made), and the
value returned to the caller (always `None`, modelled as `Unit`). -/
structure CheckoutOut where
  cart : ShoppingCart
  result : CheckoutResult
  shipped : Option (List CartItem)
  ret : Unit
deriving DecidableEq

/-- `ShoppingCart.checkout`: fail on empty cart; fail on the first expired
item; fail if `balance < subtotal + SHIPPING_FEE`; otherwise deduct stock
for every item in order, charge the balance, dispatch the shippable items
if any, and clear the cart. -/
def ShoppingCart.checkout (cart : ShoppingCart) (now : Nat) : CheckoutOut :=
  if cart.is_empty then ⟨cart, .emptyCart, none, ()⟩
  else
    match cart.items.find? (fun item => item.product.is_expired now) with
    | some item => ⟨cart, .expiredItem item.product.name, none, ()⟩
    | none =>
      if cart.customer.balance < cart.get_total_price + SHIPPING_FEE then
        ⟨cart, .insufficientBalance, none, ()⟩
      else
        ⟨{ cart with
            inventory :=
              cart.items.foldl
                (fun acc item => acc.deduct_stock item.product.name item.amount)
                cart.inventory,
            customer := { cart.customer with
              balance := cart.customer.balance
                - (cart.get_total_price + SHIPPING_FEE) },
            items := [] },
          .success,
          if cart.get_shippable_items.isEmpty then none
          else some cart.get_shippable_items, ()⟩

/-- Sum of the amounts of the cart items whose product has the given name
(the total demand `checkout` deducts for that name). -/
def cartDemand : List CartItem → String → ℚ
  | [], _ => 0
  | i :: rest, n => (if i.product.name = n then i.amount else 0) + cartDemand rest n

-- Sample data of the demo entry point, used as concrete test vectors.

def cheese : Product :=
  ⟨"Cheese", 1/20, 0, 2000, some 20250801, true, true⟩

def tvSet : Product :=
  ⟨"TV", 10000, 3, 0, none, true, false⟩

def scratchCard : Product :=
  ⟨"Mobile Scratch Card", 50, 5, 0, none, false, false⟩

def biscuits : Product :=
  ⟨"Biscuits", 10, 10, 0, some 20230101, false, false⟩

def demoInventory : Inventory :=
  ⟨[cheese, tvSet, scratchCard, biscuits]⟩

def demoCustomer : Customer :=
  ⟨"Youssef", 20000⟩

/-- A demo instant strictly after the biscuits' expiry and strictly before
the cheese's expiry. -/
def demoNow : Nat := 20250701

def demoTVCart : ShoppingCart := ⟨demoCustomer, demoInventory, [⟨tvSet, 1⟩]⟩

def poorCustomer : Customer := ⟨"Poor", 100⟩

def exactCustomer : Customer := ⟨"Exact", 10005⟩

def poorTVCart : ShoppingCart := ⟨poorCustomer, demoInventory, [⟨tvSet, 1⟩]⟩

def exactTVCart : ShoppingCart := ⟨exactCustomer, demoInventory, [⟨tvSet, 1⟩]⟩

def cardCart : ShoppingCart := ⟨demoCustomer, demoInventory, [⟨scratchCard, 2⟩]⟩

def emptyCartDemo : ShoppingCart := ⟨demoCustomer, demoInventory, []⟩

/-! ### Helper lemmas -/

lemma Product.name_deduct (p : Product) (a : ℚ) : (p.deduct a).name = p.name := by
  unfold Product.deduct
  split <;> rfl

lemma Product.active_counter_deduct (p : Product) (a : ℚ) :
    (p.deduct a).active_counter = p.active_counter - a := by
  by_cases h : p.by_weight <;>
    simp [Product.deduct, Product.active_counter, h]

lemma Product.deduct_deduct (p : Product) (a b : ℚ) :
    (p.deduct a).deduct b = p.deduct (a + b) := by
  by_cases h : p.by_weight <;>
    simp [Product.deduct, h, sub_sub]

lemma Product.deduct_zero (p : Product) : p.deduct 0 = p := by
  cases p with
  | mk nm pr qv wv ed sh bw =>
    cases bw <;> simp [Product.deduct]

lemma find?_deductFirst_self (ps : List Product) (n : String) (a : ℚ)
    (p : Product) (h : ps.find? (fun q => q.name == n) = some p) :
    (deductFirst ps n a).find? (fun q => q.name == n) = some (p.deduct a) := by
  induction ps with
  | nil => simp [List.find?] at h
  | cons q qs ih =>
    cases hq : (q.name == n) with
    | true =>
      simp only [List.find?, hq] at h
      cases h
      simp [deductFirst, List.find?, Product.name_deduct, hq]
    | false =>
      simp only [List.find?, hq] at h
      simp only [deductFirst, hq, Bool.false_eq_true, if_false]
      simp only [List.find?, hq]
      exact ih h

lemma find?_deductFirst_other (ps : List Product) (n : String) (a : ℚ)
    (m : String) (h : m ≠ n) :
    (deductFirst ps n a).find? (fun q => q.name == m)
      = ps.find? (fun q => q.name == m) := by
  induction ps with
  | nil => rfl
  | cons q qs ih =>
    cases hq : (q.name == n) with
    | true =>
      have hqn : q.name = n := by simpa using hq
      have hm : (q.name == m) = false := by
        simp only [beq_eq_false_iff_ne, ne_eq, hqn]
        exact fun e => h e.symm
      simp only [deductFirst, hq, if_true]
      simp [List.find?, Product.name_deduct, hm]
    | false =>
      simp only [deductFirst, hq, Bool.false_eq_true, if_false]
      cases hm : (q.name == m) with
      | true => simp [List.find?, hm]
      | false => simp [List.find?, hm, ih]

lemma deductFirst_no_match (ps : List Product) (n : String) (a : ℚ)
    (h : ps.find? (fun q => q.name == n) = none) :
    deductFirst ps n a = ps := by
  induction ps with
  | nil => rfl
  | cons q qs ih =>
    have hq : ¬ ((q.name == n) = true) := List.find?_eq_none.mp h q (by simp)
    have hq' : (q.name == n) = false := by simpa using hq
    have htail : qs.find? (fun q => q.name == n) = none :=
      List.find?_eq_none.mpr fun x hx =>
        List.find?_eq_none.mp h x (by simp [hx])
    simp [deductFirst, hq', ih htail]

lemma Inventory.get_product_deduct_stock_self (inv : Inventory) (n : String)
    (a : ℚ) (p : Product) (h : inv.get_product n = some p) :
    (inv.deduct_stock n a).get_product n = some (p.deduct a) :=
  find?_deductFirst_self inv.products n a p h

lemma Inventory.get_product_deduct_stock_other (inv : Inventory) (n : String)
    (a : ℚ) (m : String) (h : m ≠ n) :
    (inv.deduct_stock n a).get_product m = inv.get_product m :=
  find?_deductFirst_other inv.products n a m h

lemma Inventory.deduct_stock_not_found (inv : Inventory) (n : String) (a : ℚ)
    (h : inv.get_product n = none) : inv.deduct_stock n a = inv := by
  show Inventory.mk (deductFirst inv.products n a) = inv
  rw [deductFirst_no_match inv.products n a h]

lemma foldl_deduct_get_product (items : List CartItem) :
    ∀ (inv : Inventory) (n : String) (p : Product),
      inv.get_product n = some p →
      (items.foldl (fun acc item => acc.deduct_stock item.product.name item.amount)
          inv).get_product n
        = some (p.deduct (cartDemand items n)) := by
  induction items with
  | nil =>
    intro inv n p h
    simpa [cartDemand, Product.deduct_zero] using h
  | cons i rest ih =>
    intro inv n p h
    rw [List.foldl_cons]
    by_cases hn : i.product.name = n
    · have h1 : (inv.deduct_stock i.product.name i.amount).get_product n
          = some (p.deduct i.amount) := by
        rw [hn]
        exact inv.get_product_deduct_stock_self n i.amount p h
      rw [ih _ _ _ h1, Product.deduct_deduct]
      simp [cartDemand, hn]
    · have h1 : (inv.deduct_stock i.product.name i.amount).get_product n
          = some p := by
        rw [Inventory.get_product_deduct_stock_other _ _ _ _ fun e => hn e.symm]
        exact h
      rw [ih _ _ _ h1]
      simp [cartDemand, hn]

lemma is_empty_eq_false (cart : ShoppingCart) (h : cart.items ≠ []) :
    cart.is_empty = false := by
  simp [ShoppingCart.is_empty, h]

lemma checkout_empty_eq (cart : ShoppingCart) (now : Nat)
    (h : cart.is_empty = true) :
    cart.checkout now = ⟨cart, .emptyCart, none, ()⟩ := by
  unfold ShoppingCart.checkout
  rw [if_pos h]

lemma checkout_expired_eq (cart : ShoppingCart) (now : Nat) (item : CartItem)
    (hne : cart.is_empty = false)
    (hfind : cart.items.find? (fun i => i.product.is_expired now) = some item) :
    cart.checkout now = ⟨cart, .expiredItem item.product.name, none, ()⟩ := by
  unfold ShoppingCart.checkout
  rw [if_neg (by simp [hne]), hfind]

lemma checkout_insufficient_eq (cart : ShoppingCart) (now : Nat)
    (hne : cart.is_empty = false)
    (hfind : cart.items.find? (fun i => i.product.is_expired now) = none)
    (hbal : cart.customer.balance < cart.get_total_price + SHIPPING_FEE) :
    cart.checkout now = ⟨cart, .insufficientBalance, none, ()⟩ := by
  unfold ShoppingCart.checkout
  rw [if_neg (by simp [hne]), hfind]
  exact if_pos hbal

lemma checkout_success_eq (cart : ShoppingCart) (now : Nat)
    (hne : cart.is_empty = false)
    (hfind : cart.items.find? (fun i => i.product.is_expired now) = none)
    (hbal : ¬ cart.customer.balance < cart.get_total_price + SHIPPING_FEE) :
    cart.checkout now =
      ⟨⟨{ cart.customer with
            balance := cart.customer.balance
              - (cart.get_total_price + SHIPPING_FEE) },
          cart.items.foldl
            (fun acc item => acc.deduct_stock item.product.name item.amount)
            cart.inventory,
          []⟩,
        .success,
        if cart.get_shippable_items.isEmpty then none
        else some cart.get_shippable_items, ()⟩ := by
  unfold ShoppingCart.checkout
  rw [if_neg (by simp [hne]), hfind]
  exact if_neg hbal

lemma checkout_cases (cart : ShoppingCart) (now : Nat) :
    (cart.checkout now).result = .success
      ∨ cart.checkout now = ⟨cart, .emptyCart, none, ()⟩
      ∨ (∃ nm, cart.checkout now = ⟨cart, .expiredItem nm, none, ()⟩)
      ∨ cart.checkout now = ⟨cart, .insufficientBalance, none, ()⟩ := by
  by_cases hemp : cart.is_empty = true
  · exact Or.inr (Or.inl (checkout_empty_eq cart now hemp))
  · have hne : cart.is_empty = false := by simpa using hemp
    cases hfind : cart.items.find? (fun i => i.product.is_expired now) with
    | some item =>
      exact Or.inr (Or.inr (Or.inl
        ⟨item.product.name, checkout_expired_eq cart now item hne hfind⟩))
    | none =>
      by_cases hbal : cart.customer.balance < cart.get_total_price + SHIPPING_FEE
      · exact Or.inr (Or.inr (Or.inr
          (checkout_insufficient_eq cart now hne hfind hbal)))
      · exact Or.inl (by rw [checkout_success_eq cart now hne hfind hbal])

lemma checkout_success_conditions (cart : ShoppingCart) (now : Nat)
    (h : (cart.checkout now).result = CheckoutResult.success) :
    cart.is_empty = false
    ∧ cart.items.find? (fun i => i.product.is_expired now) = none
    ∧ ¬ cart.customer.balance < cart.get_total_price + SHIPPING_FEE := by
  by_cases hemp : cart.is_empty = true
  · rw [checkout_empty_eq cart now hemp] at h
    exact absurd h (by simp)
  · have hne : cart.is_empty = false := by simpa using hemp
    cases hfind : cart.items.find? (fun i => i.product.is_expired now) with
    | some item =>
      rw [checkout_expired_eq cart now item hne hfind] at h
      exact absurd h (by simp)
    | none =>
      by_cases hbal : cart.customer.balance < cart.get_total_price + SHIPPING_FEE
      · rw [checkout_insufficient_eq cart now hne hfind hbal] at h
        exact absurd h (by simp)
      · exact ⟨hne, rfl, hbal⟩

/-! ### Concrete evaluations of the demo carts -/

lemma demoTVCart_total : demoTVCart.get_total_price = 10000 := by
  norm_num [demoTVCart, ShoppingCart.get_total_price, CartItem.get_total_price,
    Product.get_total_price, tvSet]

lemma demoTVCart_success :
    (demoTVCart.checkout demoNow).result = CheckoutResult.success := by
  rw [checkout_success_eq demoTVCart demoNow rfl rfl
    (by rw [demoTVCart_total]; norm_num [demoTVCart, demoCustomer, SHIPPING_FEE])]

lemma cardCart_total : cardCart.get_total_price = 100 := by
  norm_num [cardCart, ShoppingCart.get_total_price, CartItem.get_total_price,
    Product.get_total_price, scratchCard]

lemma cardCart_success :
    (cardCart.checkout demoNow).result = CheckoutResult.success := by
  rw [checkout_success_eq cardCart demoNow rfl rfl
    (by rw [cardCart_total]; norm_num [cardCart, demoCustomer, SHIPPING_FEE])]

lemma append_ne_empty_right (s t : String) (h : t ≠ "") : s ++ t ≠ "" := by
  intro he
  apply h
  have hd := congrArg String.data he
  rw [String.data_append] at hd
  have h2 := (List.append_eq_nil.mp hd).2
  cases t with
  | mk td =>
    have h2' : td = [] := h2
    rw [h2']

/-- With only the unexpired cheese in stock, any requested amount up to its
2000g counter passes `is_available`. -/
lemma cheese_available (now : Nat) (h : now ≤ 20250801) (amount : ℚ)
    (ham : amount ≤ 2000) :
    (Inventory.mk [cheese]).is_available now "Cheese" amount = (true, "") := by
  have hexp : cheese.is_expired now = false := by
    simp only [cheese, Product.is_expired, decide_eq_false_iff_not, not_lt]
    omega
  unfold Inventory.is_available
  rw [show (Inventory.mk [cheese]).get_product "Cheese" = some cheese from rfl]
  dsimp only
  rw [hexp]
  simp only [Bool.false_eq_true, if_false]
  rw [show cheese.by_weight = true from rfl]
  simp only [if_true]
  rw [if_neg (by
    rw [show cheese.available_weight = 2000 from rfl]
    exact not_lt.mpr ham)]

/-- With only the unexpired cheese in stock, `add_item` appends any amount
up to 2000 to the cart, printing nothing and changing no stock. -/
lemma add_cheese_succeeds (now : Nat) (h : now ≤ 20250801) (cust : Customer)
    (items : List CartItem) (amount : ℚ) (ham : amount ≤ 2000) :
    (⟨cust, ⟨[cheese]⟩, items⟩ : ShoppingCart).add_item now "Cheese" amount
      = ⟨⟨cust, ⟨[cheese]⟩, items ++ [⟨cheese, amount⟩]⟩, [], ()⟩ := by
  have hexp : cheese.is_expired now = false := by
    simp only [cheese, Product.is_expired, decide_eq_false_iff_not, not_lt]
    omega
  unfold ShoppingCart.add_item
  rw [show (⟨cust, ⟨[cheese]⟩, items⟩ : ShoppingCart).inventory.get_product
      "Cheese" = some cheese from rfl]
  dsimp only
  rw [hexp]
  simp only [Bool.false_eq_true, if_false]
  rw [cheese_available now h amount ham]

/-! ### Claims -/

/-- C1: checkout is all-or-nothing: whenever it fails at any validation step
(empty cart, an expired item, or insufficient balance — i.e. the result is
not `success`), the whole cart state (inventory stock, customer balance,
item list) is exactly as it was before the call. -/
theorem checkout_all_or_nothing (cart : ShoppingCart) (now : Nat)
    (h : (cart.checkout now).result ≠ CheckoutResult.success) :
    (cart.checkout now).cart = cart := by
  rcases checkout_cases cart now with hs | he | ⟨nm, he⟩ | he
  · exact absurd hs h
  · rw [he]
  · rw [he]
  · rw [he]

/-- Witness for C1: a failing checkout (empty cart) leaves the state as it
was. -/
theorem checkout_all_or_nothing_witness :
    (emptyCartDemo.checkout demoNow).cart = emptyCartDemo :=
  checkout_all_or_nothing emptyCartDemo demoNow (by decide)

/-- C2: on every successful checkout the balance afterwards equals the
balance before minus (subtotal + 5.0), and every inventory product's active
counter drops by exactly the accumulated amounts of the cart items whose
product carries its name. -/
theorem checkout_success_effects (cart : ShoppingCart) (now : Nat)
    (h : (cart.checkout now).result = CheckoutResult.success) :
    (cart.checkout now).cart.customer.balance
        = cart.customer.balance - (cart.get_total_price + SHIPPING_FEE)
    ∧ ∀ n p, cart.inventory.get_product n = some p →
        (cart.checkout now).cart.inventory.get_product n
            = some (p.deduct (cartDemand cart.items n))
        ∧ (cart.checkout now).cart.inventory.counterOf n
            = some (p.active_counter - cartDemand cart.items n) := by
  obtain ⟨hne, hfind, hbal⟩ := checkout_success_conditions cart now h
  rw [checkout_success_eq cart now hne hfind hbal]
  refine ⟨rfl, fun n p hp => ?_⟩
  have hg := foldl_deduct_get_product cart.items cart.inventory n p hp
  refine ⟨hg, ?_⟩
  show ((_ : Inventory).get_product n).map Product.active_counter = _
  rw [hg]
  simp [Product.active_counter_deduct]

/-- Witness for C2: buying one TV from the demo inventory: the balance drops
by 10000 + 5 and the TV counter by 1. -/
theorem checkout_success_effects_witness :
    (demoTVCart.checkout demoNow).cart.customer.balance
        = demoTVCart.customer.balance - (demoTVCart.get_total_price + SHIPPING_FEE)
    ∧ (demoTVCart.checkout demoNow).cart.inventory.counterOf "TV"
        = some (tvSet.active_counter - cartDemand demoTVCart.items "TV")
    ∧ (demoTVCart.checkout demoNow).cart.customer.balance = 9995
    ∧ (demoTVCart.checkout demoNow).cart.inventory.counterOf "TV" = some 2 := by
  have h := checkout_success_effects demoTVCart demoNow demoTVCart_success
  have hd : cartDemand demoTVCart.items "TV" = 1 := by
    norm_num [demoTVCart, cartDemand, tvSet]
  have hc : tvSet.active_counter = 3 := by
    norm_num [tvSet, Product.active_counter]
  refine ⟨h.1, (h.2 "TV" tvSet rfl).2, ?_, ?_⟩
  · rw [h.1, demoTVCart_total]
    norm_num [demoTVCart, demoCustomer, SHIPPING_FEE]
  · rw [(h.2 "TV" tvSet rfl).2, hd, hc]
    norm_num

/-- C4: for a product present in the inventory and not expired,
`is_available` succeeds exactly when the requested amount is at most the
active counter — the comparison is `amount > available`, so the boundary
`amount == available` is allowed. -/
theorem is_available_boundary (inv : Inventory) (now : Nat) (name : String)
    (amount : ℚ) (p : Product)
    (hp : inv.get_product name = some p)
    (hexp : p.is_expired now = false) :
    (inv.is_available now name amount).1 = true ↔ amount ≤ p.active_counter := by
  unfold Inventory.is_available
  rw [hp]
  dsimp only
  simp only [hexp, Bool.false_eq_true, if_false]
  by_cases hw : p.by_weight = true
  · simp only [hw, if_true, Product.active_counter]
    by_cases hgt : amount > p.available_weight
    · simp [if_pos hgt, not_le.mpr hgt]
    · simp [if_neg hgt, not_lt.mp hgt]
  · have hw' : p.by_weight = false := by simpa using hw
    simp only [hw', Bool.false_eq_true, if_false, Product.active_counter]
    by_cases hgt : amount > p.available_quantity
    · simp [if_pos hgt, not_le.mpr hgt]
    · simp [if_neg hgt, not_lt.mp hgt]

/-- Witness for C4: in the demo inventory, requesting exactly the TV stock
(3) succeeds, requesting 4 fails. -/
theorem is_available_boundary_witness :
    (demoInventory.is_available demoNow "TV" 3).1 = true
    ∧ ¬ (demoInventory.is_available demoNow "TV" 4).1 = true :=
  ⟨(is_available_boundary demoInventory demoNow "TV" 3 tvSet (by decide)
      (by decide)).mpr (by decide),
    fun hc =>
      absurd ((is_available_boundary demoInventory demoNow "TV" 4 tvSet
        (by decide) (by decide)).mp hc) (by decide)⟩

/-- C5: for a non-empty cart with no expired items, checkout fails with
`InsufficientBalance` iff `balance < subtotal + 5.0`; that failure mutates
nothing; and a balance exactly equal to `subtotal + 5.0` succeeds. -/
theorem checkout_insufficient_balance_iff (cart : ShoppingCart) (now : Nat)
    (hne : cart.items ≠ [])
    (hexp : ∀ i ∈ cart.items, i.product.is_expired now = false) :
    ((cart.checkout now).result = CheckoutResult.insufficientBalance
        ↔ cart.customer.balance < cart.get_total_price + SHIPPING_FEE)
    ∧ ((cart.checkout now).result = CheckoutResult.insufficientBalance →
        (cart.checkout now).cart = cart)
    ∧ (cart.customer.balance = cart.get_total_price + SHIPPING_FEE →
        (cart.checkout now).result = CheckoutResult.success) := by
  have hne' : cart.is_empty = false := is_empty_eq_false cart hne
  have hfind : cart.items.find? (fun i => i.product.is_expired now) = none :=
    List.find?_eq_none.mpr fun x hx => by simp [hexp x hx]
  refine ⟨⟨fun hr => ?_, fun hbal => ?_⟩, fun hr => ?_, fun heq => ?_⟩
  · by_cases hbal : cart.customer.balance < cart.get_total_price + SHIPPING_FEE
    · exact hbal
    · rw [checkout_success_eq cart now hne' hfind hbal] at hr
      exact absurd hr (by simp)
  · rw [checkout_insufficient_eq cart now hne' hfind hbal]
  · by_cases hbal : cart.customer.balance < cart.get_total_price + SHIPPING_FEE
    · rw [checkout_insufficient_eq cart now hne' hfind hbal]
    · rw [checkout_success_eq cart now hne' hfind hbal] at hr
      exact absurd hr (by simp)
  · have hbal : ¬ cart.customer.balance < cart.get_total_price + SHIPPING_FEE := by
      rw [heq]
      exact lt_irrefl _
    rw [checkout_success_eq cart now hne' hfind hbal]

/-- Witness for C5: balance 100 fails with InsufficientBalance against a
10005 total and changes nothing; balance exactly 10005 succeeds. -/
theorem checkout_insufficient_balance_iff_witness :
    (poorTVCart.checkout demoNow).result = CheckoutResult.insufficientBalance
    ∧ (poorTVCart.checkout demoNow).cart = poorTVCart
    ∧ (exactTVCart.checkout demoNow).result = CheckoutResult.success := by
  have hp := checkout_insufficient_balance_iff poorTVCart demoNow (by decide) (by decide)
  have he := checkout_insufficient_balance_iff exactTVCart demoNow (by decide) (by decide)
  have h1 : (poorTVCart.checkout demoNow).result = CheckoutResult.insufficientBalance :=
    hp.1.mpr (by
      norm_num [poorTVCart, poorCustomer, ShoppingCart.get_total_price,
        CartItem.get_total_price, Product.get_total_price, tvSet, SHIPPING_FEE])
  refine ⟨h1, hp.2.1 h1, he.2.2 (by
    norm_num [exactTVCart, exactCustomer, ShoppingCart.get_total_price,
      CartItem.get_total_price, Product.get_total_price, tvSet, SHIPPING_FEE])⟩

/-- C6: after every successful checkout the item list is empty (`is_empty`
holds) and an immediate second checkout fails with `EmptyCart`, mutating
nothing. -/
theorem checkout_clears_cart (cart : ShoppingCart) (now : Nat)
    (h : (cart.checkout now).result = CheckoutResult.success) :
    (cart.checkout now).cart.items = []
    ∧ (cart.checkout now).cart.is_empty = true
    ∧ ((cart.checkout now).cart.checkout now).result = CheckoutResult.emptyCart
    ∧ ((cart.checkout now).cart.checkout now).cart = (cart.checkout now).cart := by
  obtain ⟨hne, hfind, hbal⟩ := checkout_success_conditions cart now h
  have hitems : (cart.checkout now).cart.items = [] := by
    rw [checkout_success_eq cart now hne hfind hbal]
  have hsecond : (cart.checkout now).cart.checkout now
      = ⟨(cart.checkout now).cart, .emptyCart, none, ()⟩ :=
    checkout_empty_eq (cart.checkout now).cart now
      (by simp [ShoppingCart.is_empty, hitems])
  exact ⟨hitems, by simp [ShoppingCart.is_empty, hitems],
    by rw [hsecond], by rw [hsecond]⟩

/-- Witness for C6: after buying one TV, the demo cart is empty and a second
checkout reports EmptyCart without mutating anything. -/
theorem checkout_clears_cart_witness :
    (demoTVCart.checkout demoNow).cart.items = []
    ∧ (demoTVCart.checkout demoNow).cart.is_empty = true
    ∧ ((demoTVCart.checkout demoNow).cart.checkout demoNow).result
        = CheckoutResult.emptyCart
    ∧ ((demoTVCart.checkout demoNow).cart.checkout demoNow).cart
        = (demoTVCart.checkout demoNow).cart :=
  checkout_clears_cart demoTVCart demoNow demoTVCart_success

/-- C8: `deduct_stock` unconditionally subtracts the amount (any sign, no
bounds check) from the active counter of the product stored under the name
when one exists, leaves every other name untouched, and is a no-op when the
name is absent. -/
theorem deduct_stock_unconditional (inv : Inventory) (name : String)
    (amount : ℚ) :
    (inv.get_product name = none → inv.deduct_stock name amount = inv)
    ∧ (∀ p, inv.get_product name = some p →
        (inv.deduct_stock name amount).get_product name
            = some (p.deduct amount)
        ∧ (p.deduct amount).active_counter = p.active_counter - amount
        ∧ ∀ m, m ≠ name →
            (inv.deduct_stock name amount).get_product m
              = inv.get_product m) :=
  ⟨fun h => inv.deduct_stock_not_found name amount h,
    fun p hp => ⟨inv.get_product_deduct_stock_self name amount p hp,
      Product.active_counter_deduct p amount,
      fun m hm => inv.get_product_deduct_stock_other name amount m hm⟩⟩

/-- Witness for C8: deducting from a missing name is a no-op; deducting 5
from the TV (stock 3) is not bounds-checked and drives the counter to -2,
leaving the cheese untouched. -/
theorem deduct_stock_unconditional_witness :
    demoInventory.deduct_stock "Nothing" 7 = demoInventory
    ∧ (demoInventory.deduct_stock "TV" 5).get_product "TV"
        = some (tvSet.deduct 5)
    ∧ (tvSet.deduct 5).active_counter = tvSet.active_counter - 5
    ∧ (demoInventory.deduct_stock "TV" 5).get_product "Cheese"
        = demoInventory.get_product "Cheese" := by
  have h1 := (deduct_stock_unconditional demoInventory "Nothing" 7).1 (by decide)
  have h2 := (deduct_stock_unconditional demoInventory "TV" 5).2 tvSet (by decide)
  exact ⟨h1, h2.1, h2.2.1, h2.2.2 "Cheese" (by decide)⟩

/-- C9: every successful checkout charges the fixed 5.0 fee even when the
shippable subset is empty, and the shipping service receives exactly the
shippable subset, and only when it is non-empty. -/
theorem shipping_fee_always_charged (cart : ShoppingCart) (now : Nat)
    (h : (cart.checkout now).result = CheckoutResult.success) :
    (cart.checkout now).cart.customer.balance
        = cart.customer.balance - (cart.get_total_price + SHIPPING_FEE)
    ∧ ((cart.checkout now).shipped = none ↔ cart.get_shippable_items = [])
    ∧ (cart.get_shippable_items ≠ [] →
        (cart.checkout now).shipped = some cart.get_shippable_items) := by
  obtain ⟨hne, hfind, hbal⟩ := checkout_success_conditions cart now h
  rw [checkout_success_eq cart now hne hfind hbal]
  refine ⟨rfl, ?_, fun hnil => ?_⟩
  · by_cases hs : cart.get_shippable_items.isEmpty = true
    · have hnil : cart.get_shippable_items = [] := by simpa using hs
      simp [hs, hnil]
    · have hnil : cart.get_shippable_items ≠ [] := by simpa using hs
      simp [hs, hnil]
  · have hs : cart.get_shippable_items.isEmpty = false := by simpa using hnil
    simp [hs]

/-- Witness for C9: a successful checkout of a non-shippable scratch card
still charges 100 + 5, and the shipping service is not invoked. -/
theorem shipping_fee_always_charged_witness :
    (cardCart.checkout demoNow).cart.customer.balance
        = cardCart.customer.balance
          - (cardCart.get_total_price + SHIPPING_FEE)
    ∧ ((cardCart.checkout demoNow).shipped = none
        ↔ cardCart.get_shippable_items = [])
    ∧ (cardCart.checkout demoNow).shipped = none := by
  have h := shipping_fee_always_charged cardCart demoNow cardCart_success
  exact ⟨h.1, h.2.1, h.2.1.mpr rfl⟩

/-- C3 counterexample: in Scenario A (inventory holding only the cheese,
2000g, not expired at the demo instant), after `add_item("Cheese", 1000)`
succeeds, the second call `add_item("Cheese", 1500)` does NOT fail: it
prints no rejection and appends a second CartItem, because add-time
availability is checked against the live counter (still 2000g — nothing is
reserved) and 1500 ≤ 2000. -/
theorem scenarioA_second_add_appends :
    (((⟨demoCustomer, ⟨[cheese]⟩, []⟩ : ShoppingCart).add_item demoNow
        "Cheese" 1000).cart.add_item demoNow "Cheese" 1500).printed = []
    ∧ (((⟨demoCustomer, ⟨[cheese]⟩, []⟩ : ShoppingCart).add_item demoNow
        "Cheese" 1000).cart.add_item demoNow "Cheese" 1500).cart.items.length
      = 2 := by
  have h1 := add_cheese_succeeds demoNow (by decide) demoCustomer [] 1000
    (by norm_num)
  have h2 := add_cheese_succeeds demoNow (by decide) demoCustomer
    ([] ++ [⟨cheese, 1000⟩]) 1500 (by norm_num)
  rw [h1]
  dsimp only
  rw [h2]
  exact ⟨rfl, rfl⟩

/-- C3 (amended): in Scenario A (inventory holding cheese by weight, 2000g
available, not expired), `add_item("Cheese", 1000)` succeeds and appends one
CartItem, and the second call `add_item("Cheese", 1500)` on the resulting
cart ALSO succeeds and appends a second CartItem — no reservation exists, so
the second add is checked against the untouched 2000g counter. -/
theorem scenarioA_oversubscription (now : Nat) (cust : Customer)
    (h : now ≤ 20250801) :
    (⟨cust, ⟨[cheese]⟩, []⟩ : ShoppingCart).add_item now "Cheese" 1000
      = ⟨⟨cust, ⟨[cheese]⟩, [⟨cheese, 1000⟩]⟩, [], ()⟩
    ∧ (⟨cust, ⟨[cheese]⟩, [⟨cheese, 1000⟩]⟩ : ShoppingCart).add_item now
        "Cheese" 1500
      = ⟨⟨cust, ⟨[cheese]⟩, [⟨cheese, 1000⟩, ⟨cheese, 1500⟩]⟩, [], ()⟩ := by
  constructor
  · simpa using add_cheese_succeeds now h cust [] 1000 (by norm_num)
  · simpa using add_cheese_succeeds now h cust [⟨cheese, 1000⟩] 1500 (by norm_num)

/-- Witness for the amended C3 at the demo instant and demo customer. -/
theorem scenarioA_oversubscription_witness :
    (⟨demoCustomer, ⟨[cheese]⟩, []⟩ : ShoppingCart).add_item demoNow
        "Cheese" 1000
      = ⟨⟨demoCustomer, ⟨[cheese]⟩, [⟨cheese, 1000⟩]⟩, [], ()⟩
    ∧ (⟨demoCustomer, ⟨[cheese]⟩, [⟨cheese, 1000⟩]⟩ : ShoppingCart).add_item
        demoNow "Cheese" 1500
      = ⟨⟨demoCustomer, ⟨[cheese]⟩, [⟨cheese, 1000⟩, ⟨cheese, 1500⟩]⟩, [], ()⟩ :=
  scenarioA_oversubscription demoNow demoCustomer (by decide)

/-- The reason string returned by a failing `is_available` is never empty. -/
lemma is_available_failure_reason (inv : Inventory) (now : Nat) (name : String)
    (amount : ℚ) (hf : (inv.is_available now name amount).1 = false) :
    (inv.is_available now name amount).2 ≠ "" := by
  unfold Inventory.is_available at hf ⊢
  cases hg : inv.get_product name with
  | none => exact (by decide : ("Product not found or expired." : String) ≠ "")
  | some p =>
    rw [hg] at hf
    dsimp only at hf ⊢
    by_cases hexp : p.is_expired now = true
    · simp only [hexp, if_true]
      decide
    · have hexp' : p.is_expired now = false := by simpa using hexp
      rw [hexp'] at hf ⊢
      simp only [Bool.false_eq_true, if_false] at hf ⊢
      by_cases hw : p.by_weight = true
      · simp only [hw, if_true] at hf ⊢
        by_cases hgt : amount > p.available_weight
        · simp only [if_pos hgt]
          exact append_ne_empty_right _ _ (by decide)
        · rw [if_neg hgt] at hf
          exact absurd hf (by decide)
      · have hw' : p.by_weight = false := by simpa using hw
        rw [hw'] at hf ⊢
        simp only [Bool.false_eq_true, if_false] at hf ⊢
        by_cases hgt : amount > p.available_quantity
        · simp only [if_pos hgt]
          exact append_ne_empty_right _ _ (by decide)
        · rw [if_neg hgt] at hf
          exact absurd hf (by decide)

/-- `add_item` either succeeds silently (appending exactly one item) or
prints a rejection and leaves the cart untouched. -/
lemma add_item_printed_or (cart : ShoppingCart) (now : Nat) (name : String)
    (amount : ℚ) :
    ((cart.add_item now name amount).printed = []
        ∧ ∃ prod, (cart.add_item now name amount).cart
            = { cart with items := cart.items ++ [⟨prod, amount⟩] })
      ∨ ((cart.add_item now name amount).printed ≠ []
        ∧ (cart.add_item now name amount).cart = cart) := by
  unfold ShoppingCart.add_item
  cases hg : cart.inventory.get_product name with
  | none => exact Or.inr ⟨by simp, rfl⟩
  | some prod =>
    dsimp only
    by_cases hexp : prod.is_expired now = true
    · rw [if_pos hexp]
      exact Or.inr ⟨by simp, rfl⟩
    · rw [if_neg hexp]
      rcases hav : cart.inventory.is_available now name amount with ⟨b, msg⟩
      cases b
      · exact Or.inr ⟨by simp, rfl⟩
      · exact Or.inl ⟨rfl, prod, rfl⟩

/-- C7 counterexample: `add_item` does not return a success/failure signal
to its caller: a succeeding call and a failing call return the very same
value (Python's `None`); only the printed output and the cart state differ. -/
theorem add_item_returns_no_signal :
    ((⟨demoCustomer, demoInventory, []⟩ : ShoppingCart).add_item demoNow
        "TV" 1).ret
      = ((⟨demoCustomer, demoInventory, []⟩ : ShoppingCart).add_item demoNow
        "TV" 99).ret
    ∧ ((⟨demoCustomer, demoInventory, []⟩ : ShoppingCart).add_item demoNow
        "TV" 1).printed = []
    ∧ ((⟨demoCustomer, demoInventory, []⟩ : ShoppingCart).add_item demoNow
        "TV" 1).cart.items.length = 1
    ∧ ((⟨demoCustomer, demoInventory, []⟩ : ShoppingCart).add_item demoNow
        "TV" 99).printed ≠ []
    ∧ ((⟨demoCustomer, demoInventory, []⟩ : ShoppingCart).add_item demoNow
        "TV" 99).cart
      = ⟨demoCustomer, demoInventory, []⟩ :=
  ⟨rfl, rfl, rfl, by decide, rfl⟩

/-- C7 (amended): `is_available` does return a (success, reason) pair whose
reason is non-empty on failure, but `add_item` and `checkout` return `None`
to their caller: they report failures only by printing a human-readable
reason, leaving the state unchanged, and no exception escapes (every
operation is a total function). -/
theorem fallible_ops_report_reasons (cart : ShoppingCart) (now : Nat)
    (inv : Inventory) (name : String) (amount : ℚ) :
    ((inv.is_available now name amount).1 = false →
        (inv.is_available now name amount).2 ≠ "")
    ∧ (cart.add_item now name amount).ret = ()
    ∧ (((cart.add_item now name amount).printed = []
          ∧ ∃ prod, (cart.add_item now name amount).cart
              = { cart with items := cart.items ++ [⟨prod, amount⟩] })
        ∨ ((cart.add_item now name amount).printed ≠ []
          ∧ (cart.add_item now name amount).cart = cart))
    ∧ (cart.checkout now).ret = ()
    ∧ ((cart.checkout now).result ≠ CheckoutResult.success →
        (cart.checkout now).cart = cart
        ∧ (cart.checkout now).result.message ≠ "") := by
  refine ⟨is_available_failure_reason inv now name amount, rfl,
    add_item_printed_or cart now name amount, rfl, fun hns => ?_⟩
  rcases checkout_cases cart now with hs | he | ⟨nm, he⟩ | he
  · exact absurd hs hns
  · rw [he]
    exact ⟨rfl, (by decide : ("Cart is empty." : String) ≠ "")⟩
  · rw [he]
    exact ⟨rfl, append_ne_empty_right _ _ (by decide)⟩
  · rw [he]
    exact ⟨rfl, (by decide : ("Insufficient balance." : String) ≠ "")⟩

/-- Witness for the amended C7: requesting 99 TVs fails with a non-empty
reason, and both `add_item` and `checkout` return `None`. -/
theorem fallible_ops_report_reasons_witness :
    (demoInventory.is_available demoNow "TV" 99).2 ≠ ""
    ∧ ((⟨demoCustomer, demoInventory, []⟩ : ShoppingCart).add_item demoNow
        "TV" 99).ret = ()
    ∧ ((⟨demoCustomer, demoInventory, []⟩ : ShoppingCart).checkout
        demoNow).ret = () := by
  have h := fallible_ops_report_reasons ⟨demoCustomer, demoInventory, []⟩
    demoNow demoInventory "TV" 99
  exact ⟨h.1 (by decide), h.2.1, h.2.2.2.1⟩

/-- C10: a zero or negative amount passes `is_available` (it is ≤ the
active counter), `add_item` appends it, and a later successful checkout of a
negative-amount item RAISES the stock counter and charges less than the bare
shipping fee. -/
theorem negative_amount_accepted (inv : Inventory) (now : Nat) (name : String)
    (amount : ℚ) (p : Product) (cust : Customer) (items : List CartItem)
    (hp : inv.get_product name = some p)
    (hexp : p.is_expired now = false)
    (ham : amount ≤ p.active_counter) :
    inv.is_available now name amount = (true, "")
    ∧ ((⟨cust, inv, items⟩ : ShoppingCart).add_item now name amount).cart.items
        = items ++ [⟨p, amount⟩]
    ∧ (amount < 0 → 0 < p.price_per_unit →
        p.get_total_price amount + SHIPPING_FEE ≤ cust.balance →
        ((⟨cust, inv, [⟨p, amount⟩]⟩ : ShoppingCart).checkout now).result
            = CheckoutResult.success
        ∧ ((⟨cust, inv, [⟨p, amount⟩]⟩ : ShoppingCart).checkout
              now).cart.inventory.counterOf name
            = some (p.active_counter - amount)
        ∧ p.active_counter < p.active_counter - amount
        ∧ cust.balance - ((⟨cust, inv, [⟨p, amount⟩]⟩ : ShoppingCart).checkout
              now).cart.customer.balance
            < SHIPPING_FEE) := by
  have hav : inv.is_available now name amount = (true, "") := by
    unfold Inventory.is_available
    rw [hp]
    dsimp only
    rw [hexp]
    simp only [Bool.false_eq_true, if_false]
    by_cases hw : p.by_weight = true
    · rw [if_pos hw, if_neg (not_lt.mpr (by
        rw [show p.available_weight = p.active_counter by
          simp [Product.active_counter, hw]]
        exact ham))]
    · have hw' : p.by_weight = false := by simpa using hw
      rw [hw']
      simp only [Bool.false_eq_true, if_false]
      rw [if_neg (not_lt.mpr (by
        rw [show p.available_quantity = p.active_counter by
          simp [Product.active_counter, hw']]
        exact ham))]
  have hadd : ((⟨cust, inv, items⟩ : ShoppingCart).add_item now name
      amount).cart.items = items ++ [⟨p, amount⟩] := by
    unfold ShoppingCart.add_item
    dsimp only
    rw [hp]
    dsimp only
    rw [hexp]
    simp only [Bool.false_eq_true, if_false]
    rw [hav]
  refine ⟨hav, hadd, fun hneg hpr hbal => ?_⟩
  have hpname : p.name = name := by simpa using List.find?_some hp
  have htot : (⟨cust, inv, [⟨p, amount⟩]⟩ : ShoppingCart).get_total_price
      = p.get_total_price amount := by
    simp [ShoppingCart.get_total_price, CartItem.get_total_price]
  have hfind : (⟨cust, inv, [⟨p, amount⟩]⟩ : ShoppingCart).items.find?
      (fun i => i.product.is_expired now) = none := by
    simp [List.find?, hexp]
  have hb : ¬ (⟨cust, inv, [⟨p, amount⟩]⟩ : ShoppingCart).customer.balance
      < (⟨cust, inv, [⟨p, amount⟩]⟩ : ShoppingCart).get_total_price
        + SHIPPING_FEE := by
    rw [htot]
    exact not_lt.mpr hbal
  have hck := checkout_success_eq (⟨cust, inv, [⟨p, amount⟩]⟩ : ShoppingCart)
    now rfl hfind hb
  refine ⟨by rw [hck], ?_, by linarith, ?_⟩
  · rw [hck]
    have hfold : ([⟨p, amount⟩] : List CartItem).foldl
        (fun acc item => acc.deduct_stock item.product.name item.amount) inv
        = inv.deduct_stock p.name amount := rfl
    have hgp : (inv.deduct_stock p.name amount).get_product name
        = some (p.deduct amount) := by
      rw [hpname]
      exact inv.get_product_deduct_stock_self name amount p hp
    show ((inv.deduct_stock p.name amount).get_product name).map
        Product.active_counter = _
    rw [hgp]
    simp [Product.active_counter_deduct]
  · rw [hck]
    dsimp only
    rw [htot]
    have hprice : p.get_total_price amount < 0 := by
      unfold Product.get_total_price
      exact mul_neg_of_pos_of_neg hpr hneg
    linarith

/-- Witness for C10: requesting -2 TVs passes availability, is added to the
cart, and checking out raises the TV counter from 3 to 5 while charging
-20000 + 5 (the balance goes up). -/
theorem negative_amount_accepted_witness :
    demoInventory.is_available demoNow "TV" (-2) = (true, "")
    ∧ ((⟨demoCustomer, demoInventory, []⟩ : ShoppingCart).add_item demoNow
        "TV" (-2)).cart.items = [] ++ [⟨tvSet, -2⟩]
    ∧ ((⟨demoCustomer, demoInventory, [⟨tvSet, -2⟩]⟩ : ShoppingCart).checkout
        demoNow).result = CheckoutResult.success
    ∧ ((⟨demoCustomer, demoInventory, [⟨tvSet, -2⟩]⟩ : ShoppingCart).checkout
        demoNow).cart.inventory.counterOf "TV"
      = some (tvSet.active_counter - (-2))
    ∧ tvSet.active_counter < tvSet.active_counter - (-2)
    ∧ demoCustomer.balance
        - ((⟨demoCustomer, demoInventory, [⟨tvSet, -2⟩]⟩ : ShoppingCart).checkout
            demoNow).cart.customer.balance
      < SHIPPING_FEE := by
  have h := negative_amount_accepted demoInventory demoNow "TV" (-2) tvSet
    demoCustomer [] rfl rfl
    (by norm_num [tvSet, Product.active_counter])
  have h2 := h.2.2 (by norm_num) (by norm_num [tvSet])
    (by norm_num [Product.get_total_price, tvSet, SHIPPING_FEE, demoCustomer])
  exact ⟨h.1, h.2.1, h2.1, h2.2.1, h2.2.2.1, h2.2.2.2⟩
